import Mathlib

/-!
Verification of the tsukuba-gdmc-2023 construction-plot engine and
settlement state machine against its natural-language specification.

The definitions below are shallow embeddings of `construction_plot.py`,
`build_area.py` and `src/simulation/settlement.py`.  Machine integers are
modelled as `Int`/`Nat` (Python integers are unbounded), Python `float`
scores as `Rat`, numpy 2-d array indexing (negative wrap-around, and
`IndexError` outside `[-n, n)`) as an `Option`-returning lookup, and
uncaught Python exceptions as a `none` result.
-/

namespace Tsukuba

/-- Modelled from the spec: the `Coordinates` value type of the `utils`
package is not under `src/`.  Per the spec it is an immutable integer
triple (x, y, z) supporting translation (`shift`), vertical projection
(`with_y`) and structural equality. -/
structure Coordinates where
  x : ℤ
  y : ℤ
  z : ℤ
deriving DecidableEq

/-- `Coordinates.shift(x, y, z)`: translation by the given offsets. -/
def Coordinates.shift (c : Coordinates) (dx dy dz : ℤ) : Coordinates :=
  ⟨c.x + dx, c.y + dy, c.z + dz⟩

/-- `Coordinates.with_y(y)`: vertical projection, keeping x and z. -/
def Coordinates.with_y (c : Coordinates) (y : ℤ) : Coordinates :=
  ⟨c.x, y, c.z⟩

/-- A concrete, executable planar-distance stand-in (squared Euclidean
distance on the x–z plane).  The real `Coordinates.distance` (a Python
float Euclidean distance) is not under `src/`; every general theorem
below therefore quantifies over an arbitrary distance function `dist`,
and `sqDist` is only used to instantiate closed evaluations whose
refuting differences do not depend on the distance term. -/
def sqDist (a b : Coordinates) : ℚ :=
  (((a.x - b.x) * (a.x - b.x) + (a.z - b.z) * (a.z - b.z) : ℤ) : ℚ)

/-- State of a `ConstructionPlot` (`construction_plot.py`): plot origin
`start = (x, 0, z)`, plot `size`, the `construction_roof` ceiling and the
mutable `occupied_coords` set (modelled as a list used only through
membership). -/
structure CPlot where
  startX : ℤ
  startZ : ℤ
  sizeX : ℕ
  sizeZ : ℕ
  construction_roof : ℤ
  occupied_coords : List Coordinates
deriving DecidableEq

/-- `self.center[0] = self.start.x + self.size[0] // 2` (`build_area.py`). -/
def CPlot.centerX (p : CPlot) : ℤ := p.startX + (p.sizeX / 2 : ℕ)

/-- `self.center[1] = self.start.z + self.size[1] // 2` (`build_area.py`). -/
def CPlot.centerZ (p : CPlot) : ℤ := p.startZ + (p.sizeZ / 2 : ℕ)

/-- Modelled from the spec: the area-membership test (`current in self`,
backed by the missing `Coordinates.is_in_area` of the `utils` package) is
the rectangular-bound test on the projected column, with the plot's
half-open extent `[start, start + size)` on x and z. -/
def CPlot.containsC (p : CPlot) (c : Coordinates) : Bool :=
  decide (p.startX ≤ c.x) && decide (c.x < p.startX + p.sizeX) &&
  decide (p.startZ ≤ c.z) && decide (c.z < p.startZ + p.sizeZ)

/-- numpy 1-axis indexing: an integer index `i` into an axis of length
`n` resolves to `i` for `0 ≤ i < n`, wraps to `n + i` for `-n ≤ i < 0`,
and raises `IndexError` (here: `none`) otherwise. -/
def npIdx (n : ℕ) (i : ℤ) : Option ℕ :=
  if 0 ≤ i ∧ i < (n : ℤ) then some i.toNat
  else if -(n : ℤ) ≤ i ∧ i < 0 then some (i + n).toNat
  else none

/-- `ConstructionPlot._get_y(x, z)`: reads
`self._construction_heightmap[x - start.x, z - start.z]`.  The heightmap
is a `sizeX × sizeZ` numpy array, passed here as the function `hm` over
in-range indices; `none` is an uncaught `IndexError`. -/
def CPlot.get_y (p : CPlot) (hm : ℕ → ℕ → ℤ) (a b : ℤ) : Option ℤ :=
  match npIdx p.sizeX (a - p.startX), npIdx p.sizeZ (b - p.startZ) with
  | some i, some j => some (hm i j)
  | _, _ => none

/-- `ConstructionPlot._WORST_SCORE = 100_000_000`. -/
def WORST_SCORE : ℚ := 100000000

/-- Footprint cells `(x, z)` for `x in range(size[0])`, `z in
range(size[1])`, in the loop's x-major order. -/
def footprintCells (size : ℕ × ℕ) : List (ℕ × ℕ) :=
  (List.range size.1).flatMap fun dx => (List.range size.2).map fun dz => (dx, dz)

/-- The cell loop of `ConstructionPlot._get_score`.  For each cell the
code forms `current = coord.shift(x, 0, z)`; if `current` is outside the
plot it returns `_WORST_SCORE` at once, otherwise it adds
`abs(coord.y - self._get_y(current.x, current.y))` — note the code
passes `current.y` where `_get_y` expects a z coordinate.  A failing
(numpy `IndexError`) lookup is not caught by the `except KeyError`
handler, so it aborts the whole evaluation (`none`). -/
def scoreLoop (p : CPlot) (hm : ℕ → ℕ → ℤ) (coord : Coordinates) :
    List (ℕ × ℕ) → ℚ → Option ℚ
  | [], acc => some acc
  | (dx, dz) :: rest, acc =>
    let current := coord.shift dx 0 dz
    if p.containsC current then
      match p.get_y hm current.x current.y with
      | some hy => scoreLoop p hm coord rest (acc + ((coord.y - hy).natAbs : ℚ))
      | none => none
    else some WORST_SCORE

/-- `ConstructionPlot._get_score(coord, size)`: starts from the
distance-to-center malus `coord.with_y(0).distance(center) * 0.1` and
runs the cell loop.  `dist` abstracts the missing `Coordinates.distance`. -/
def CPlot.get_score (p : CPlot) (dist : Coordinates → Coordinates → ℚ)
    (hm : ℕ → ℕ → ℤ) (coord : Coordinates) (size : ℕ × ℕ) : Option ℚ :=
  scoreLoop p hm coord (footprintCells size)
    (dist (coord.with_y 0) ⟨p.centerX, 0, p.centerZ⟩ * (1 / 10))

/-- `ConstructionPlot._build_foundation_blocks`: for every heightmap
entry `(x, z) → h` form `Coordinates(start.x + x, h - 1, start.z + z)`;
skip it if it is in `occupied_coords`; keep it if its surface block is
not water and `h - 1 < construction_roof`.  The resulting candidate pool
is the dict's key list, in x-major insertion order.  `water x y z`
abstracts `get_block_at(x, y, z).is_one_of(["water"])`. -/
def CPlot.foundationKeys (p : CPlot) (hm : ℕ → ℕ → ℤ)
    (water : ℤ → ℤ → ℤ → Bool) : List Coordinates :=
  (List.range p.sizeX).flatMap fun x =>
    (List.range p.sizeZ).filterMap fun z =>
      let h := hm x z
      let c : Coordinates := ⟨p.startX + x, h - 1, p.startZ + z⟩
      if c ∈ p.occupied_coords then none
      else if water c.x c.y c.z = false ∧ c.y < p.construction_roof then some c
      else none

/-- The minimum-tracking loop of `get_construction_spot`: running best
spot and running minimum (initialised to `_WORST_SCORE`), updated on a
strict `<`.  A score evaluation that raises aborts the search (`none`). -/
def searchLoop (f : Coordinates → Option ℚ) :
    List Coordinates → Coordinates → ℚ → Option Coordinates
  | [], best, _ => some best
  | c :: rest, best, m =>
    match f c with
    | none => none
    | some sc => if sc < m then searchLoop f rest c sc else searchLoop f rest best m

/-- `ConstructionPlot.get_construction_spot(size)` at the default stride
(`speed = 1`, so `keys_list[::speed] = keys_list`): rebuilds the
foundation pool, then takes `best_spot = keys_list[0]` — an
`IndexError` (`none`) on an empty pool — and scans the whole pool with
`searchLoop`.  The function has no `max_score` parameter and no failure
report; its only outcomes are a coordinate or an exception. -/
def CPlot.get_construction_spot (p : CPlot) (dist : Coordinates → Coordinates → ℚ)
    (hm : ℕ → ℕ → ℤ) (water : ℤ → ℤ → ℤ → Bool) (size : ℕ × ℕ) :
    Option Coordinates :=
  match p.foundationKeys hm water with
  | [] => none
  | k0 :: _ =>
    searchLoop (fun c => p.get_score dist hm c size)
      (p.foundationKeys hm water) k0 WORST_SCORE

/-- `ConstructionPlot.occupy_area(origin, size, padding)`: for
`x in range(-padding, size[0] + padding)` and
`z in range(-padding, size[1] + padding)` adds
`origin.shift(size[0] + x, 0, size[1] + z).with_y(0)` to
`occupied_coords`. -/
def CPlot.occupy_area (p : CPlot) (origin : Coordinates) (size : ℕ × ℕ)
    (padding : ℕ) : CPlot :=
  { p with occupied_coords := p.occupied_coords ++
      ((List.range (size.1 + 2 * padding)).flatMap fun i =>
        (List.range (size.2 + 2 * padding)).map fun j =>
          (origin.shift ((size.1 : ℤ) + ((i : ℤ) - padding)) 0
            ((size.2 : ℤ) + ((j : ℤ) - padding))).with_y 0) }

/-- Spec-side scorer, written from the spec's words for comparison with
`CPlot.get_score`: base malus `0.1 ×` planar distance from the origin's
projection to the plot center, plus, for every cell `(dx, dz)` of the
footprint, the absolute difference between the origin's column height
(`coord.y`) and the column height of cell
`(origin.x + dx, origin.z + dz)` read from the heightmap at that cell's
relative position. -/
def scoreSpec (p : CPlot) (dist : Coordinates → Coordinates → ℚ)
    (hm : ℕ → ℕ → ℤ) (coord : Coordinates) (size : ℕ × ℕ) : ℚ :=
  dist (coord.with_y 0) ⟨p.centerX, 0, p.centerZ⟩ * (1 / 10) +
  ((footprintCells size).map fun c =>
    ((coord.y - hm (coord.x - p.startX + c.1).toNat (coord.z - p.startZ + c.2).toNat).natAbs : ℚ)).sum

/-- Modelled from the spec: a `Villager` (class not under `src/`) has a
birth year, an optional house reference and an optional workplace
reference; the references are modelled as indices into the settlement's
chronology. -/
structure Villager where
  birth : ℤ
  house : Option ℕ
  work : Option ℕ
deriving DecidableEq

/-- Modelled from the spec: the slice of a `Building` (class not under
`src/`) that `Settlement` consumes — its name, its declared bed count
(`properties.number_of_beds`), worker slots (`properties.workers`), food
production (`properties.food_production`), and the mutable counts of
assigned inhabitants and workers. -/
structure Bldg where
  name : String
  number_of_beds : ℕ
  worker_slots : ℕ
  food_production : ℤ
  inhab : ℕ
  workers : ℕ
deriving DecidableEq

/-- Modelled from the spec: `Building.has_empty_beds` — the building has
fewer assigned inhabitants than declared beds. -/
def Bldg.has_empty_beds (b : Bldg) : Bool := b.inhab < b.number_of_beds

/-- Modelled from the spec: `Building.can_offer_work` — the building has
fewer workers than declared worker slots. -/
def Bldg.can_offer_work (b : Bldg) : Bool := b.workers < b.worker_slots

/-- State of a `Settlement` (`src/simulation/settlement.py`): the
append-only `chronology` of built buildings, the `inhabitants` roster,
the `food_available` stock, the per-name construction `__counter`, and
the plot's occupancy tracker committed on successful builds. -/
structure Settlement where
  chronology : List Bldg
  inhabitants : List Villager
  food_available : ℤ
  counter : List (String × ℕ)
  occupied : List Coordinates
deriving DecidableEq

/-- `Settlement.population = len(self.inhabitants)`. -/
def Settlement.population (s : Settlement) : ℕ := s.inhabitants.length

/-- `Settlement.number_of_beds`: sum of bed counts over the chronology. -/
def Settlement.number_of_beds (s : Settlement) : ℕ :=
  (s.chronology.map Bldg.number_of_beds).sum

/-- `Settlement.food_production`: sum of per-building food production. -/
def Settlement.food_production (s : Settlement) : ℤ :=
  (s.chronology.map Bldg.food_production).sum

/-- In-place update of the `n`-th element of a list (Python mutates the
building/villager object held by the list). -/
def listModify {α : Type} (l : List α) (n : ℕ) (f : α → α) : List α :=
  match l, n with
  | [], _ => []
  | a :: t, 0 => f a :: t
  | a :: t, n + 1 => a :: listModify t n f

/-- `house.add_inhabitant(villager, year)`: increments the building's
inhabitant count and points the villager's house at that building. -/
def Settlement.assignHouse (s : Settlement) (h v : ℕ) : Settlement :=
  { s with
    chronology := listModify s.chronology h fun b => { b with inhab := b.inhab + 1 },
    inhabitants := listModify s.inhabitants v fun w => { w with house := some h } }

/-- `work_place.add_worker(villager, year)`: increments the building's
worker count and points the villager's workplace at that building. -/
def Settlement.assignWork (s : Settlement) (h v : ℕ) : Settlement :=
  { s with
    chronology := listModify s.chronology h fun b => { b with workers := b.workers + 1 },
    inhabitants := listModify s.inhabitants v fun w => { w with work := some h } }

/-- The loop of `Settlement.__fill_houses`: for each villager of the
homeless snapshot, break if the pool is empty, else `pop()` the building
at the BACK of the pool, assign the villager to it, and re-`append` it
at the back if it still has empty beds. -/
def fillHousesLoop : Settlement → List ℕ → List ℕ → Settlement
  | s, _, [] => s
  | s, stack, v :: rest =>
    match stack.getLast? with
    | none => s
    | some h =>
      let s' := s.assignHouse h v
      let keep := match s'.chronology.get? h with
        | some b => b.has_empty_beds
        | none => false
      fillHousesLoop s' (if keep then stack.dropLast ++ [h] else stack.dropLast) rest

/-- `Settlement.__fill_houses(year)`: snapshot the buildings with empty
beds (in chronology order) and the homeless villagers (in roster order),
then run the assignment loop. -/
def Settlement.fill_houses (s : Settlement) : Settlement :=
  fillHousesLoop s
    ((List.range s.chronology.length).filter fun i =>
      match s.chronology.get? i with
      | some b => b.has_empty_beds
      | none => false)
    ((List.range s.inhabitants.length).filter fun i =>
      match s.inhabitants.get? i with
      | some v => v.house = none
      | none => false)

/-- The loop of `Settlement.__fill_work_places`, identical to the
housing loop over buildings that can offer work and inactive villagers. -/
def fillWorkLoop : Settlement → List ℕ → List ℕ → Settlement
  | s, _, [] => s
  | s, stack, v :: rest =>
    match stack.getLast? with
    | none => s
    | some h =>
      let s' := s.assignWork h v
      let keep := match s'.chronology.get? h with
        | some b => b.can_offer_work
        | none => false
      fillWorkLoop s' (if keep then stack.dropLast ++ [h] else stack.dropLast) rest

/-- `Settlement.__fill_work_places(year)`. -/
def Settlement.fill_work_places (s : Settlement) : Settlement :=
  fillWorkLoop s
    ((List.range s.chronology.length).filter fun i =>
      match s.chronology.get? i with
      | some b => b.can_offer_work
      | none => false)
    ((List.range s.inhabitants.length).filter fun i =>
      match s.inhabitants.get? i with
      | some v => v.work = none
      | none => false)

/-- The resource step of `Settlement.update(year)` (`settlement.py`
lines 150–177): `food_available += food_production`; if
`food_available >= population`, feed everyone, and when
`number_of_beds >= population` spawn
`max(0, min(food_available - population, min(population // 2,
number_of_beds - population)))` newborns dated `year` (note
`food_available` here is the stock AFTER feeding); otherwise subtract
the population from the food (going negative), extend the roster by
`range(food_available)` villagers (an empty range, as the stock is
negative) and reset the food to 0. -/
def Settlement.updateCore (s : Settlement) (year : ℤ) : Settlement :=
  if (s.population : ℤ) ≤ s.food_available + s.food_production then
    if (s.population : ℤ) ≤ (s.number_of_beds : ℤ) then
      { s with
        food_available := s.food_available + s.food_production - s.population,
        inhabitants := s.inhabitants ++
          List.replicate
            (max 0 (min (s.food_available + s.food_production - s.population - s.population)
              (min ((s.population : ℤ) / 2) ((s.number_of_beds : ℤ) - s.population)))).toNat
            ⟨year, none, none⟩ }
    else { s with food_available := s.food_available + s.food_production - s.population }
  else
    { s with
      food_available := 0,
      inhabitants := s.inhabitants ++
        List.replicate (s.food_available + s.food_production - (s.population : ℤ)).toNat
          ⟨year, none, none⟩ }

/-- `Settlement.update(year)`: the resource step, then housing and job
assignment. -/
def Settlement.update (s : Settlement) (year : ℤ) : Settlement :=
  (s.updateCore year).fill_houses.fill_work_places

/-- Result of a successful `CityPlot.get_subplot`: the footprint surface
the settlement commits to the occupancy tracker. -/
structure SubPlot where
  surface : List Coordinates
deriving DecidableEq

/-- `self.__counter[building.name] += 1` on a `Counter` association. -/
def bumpCounter : List (String × ℕ) → String → List (String × ℕ)
  | [], n => [(n, 1)]
  | (m, k) :: t, n => if m = n then (m, k + 1) :: t else (m, k) :: bumpCounter t n

/-- `Settlement.add_building(building, max_score)` (`settlement.py`
lines 97–110): ask the plot for a subplot; on `None`, return `False`
without touching any state; on success, build (commit the surface to the
occupancy tracker, append to the chronology) and bump the per-name
counter.  The spot search itself (`CityPlot.get_subplot`, not under
`src/`) is passed in as its `found` outcome. -/
def Settlement.add_building (s : Settlement) (b : Bldg) (found : Option SubPlot) :
    Bool × Settlement :=
  match found with
  | none => (false, s)
  | some plot =>
    (true, { s with occupied := s.occupied ++ plot.surface,
                    chronology := s.chronology ++ [b],
                    counter := bumpCounter s.counter b.name })

/-- The minimum-tracking scan of the spec's `find_spot`, first-encountered
tie-break, over total scores. -/
def argminLoop {α : Type} (score : α → ℚ) : List α → α → ℚ → α × ℚ
  | [], best, m => (best, m)
  | c :: rest, best, m =>
    if score c < m then argminLoop score rest c (score c)
    else argminLoop score rest best m

/-- Modelled from the spec: `find_spot(size, stride=1, max_score)` of the
placement search whose `max_score`-aware implementation
(`CityPlot.get_subplot`, called by `Settlement.add_building`) is not
under `src/`.  Per the spec it scores the candidate pool, returns the
coordinate of minimum score, reports NoSuitableSpot (`none`) on an empty
pool, and reports NoSuitableSpot when `max_score` is supplied and the
minimum exceeds it. -/
def findSpot {α : Type} (pool : List α) (score : α → ℚ) (maxScore : Option ℚ) :
    Option α :=
  match pool with
  | [] => none
  | p0 :: rest =>
    let bm := argminLoop score rest p0 (score p0)
    match maxScore with
    | some t => if t < bm.2 then none else some bm.1
    | none => some bm.1

/-! ### Concrete scenarios used by the closed theorems -/

/-- A world with no water anywhere. -/
def noWater : ℤ → ℤ → ℤ → Bool := fun _ _ _ => false

/-- A world covered in water. -/
def allWater : ℤ → ℤ → ℤ → Bool := fun _ _ _ => true

/-- 5×5 plot at (0,0) after `occupy_area(origin=(0,0,0), size=(3,3),
padding=1)` on an initially empty occupancy set. -/
def p1 : CPlot := (CPlot.mk 0 0 5 5 200 []).occupy_area ⟨0, 0, 0⟩ (3, 3) 1

/-- Flat terrain of height 10. -/
def hm1 : ℕ → ℕ → ℤ := fun _ _ => 10

/-- 2×2 plot at (0,0) with empty occupancy. -/
def p2 : CPlot := CPlot.mk 0 0 2 2 200 []

/-- Heightmap `[[1, 5], [7, 9]]` (indexed `[x][z]`). -/
def hm2 : ℕ → ℕ → ℤ := fun x z =>
  if x = 0 then (if z = 0 then 1 else 5) else (if z = 0 then 7 else 9)

/-- 1×1 plot at (0,0). -/
def p4 : CPlot := CPlot.mk 0 0 1 1 200 []

/-- Flat terrain of height 5. -/
def hm4 : ℕ → ℕ → ℤ := fun _ _ => 5

/-- 2×2 plot at (0,0). -/
def pc3 : CPlot := CPlot.mk 0 0 2 2 200 []

/-- Ordinary flat terrain of height 64. -/
def hmc3 : ℕ → ℕ → ℤ := fun _ _ => 64

/-- 1×1 plot at (0,0). -/
def p3w : CPlot := CPlot.mk 0 0 1 1 200 []

/-- Flat terrain of height 1 (so the candidate y sits at `start.z`). -/
def hm3w : ℕ → ℕ → ℤ := fun _ _ => 1

/-- 1×2 plot at (0,0). -/
def p9 : CPlot := CPlot.mk 0 0 1 2 200 []

/-- Flat terrain of height 1. -/
def hm9 : ℕ → ℕ → ℤ := fun _ _ => 1

/-- Water exactly at the surface block (0, 0, 1) — the ground of the
footprint cell (dx, dz) = (0, 1) for an origin at (0, 0, 0). -/
def w9 : ℤ → ℤ → ℤ → Bool := fun x y z => x = 0 && y = 0 && z = 1

/-- 1×1 plot at (0,0), for the out-of-plot scoring witness. -/
def pw9 : CPlot := CPlot.mk 0 0 1 1 200 []

/-- Settlement of the spec's §8 resource test: one building with 12 beds
and food production 4, population 10, food stock 10. -/
def s6 : Settlement :=
  ⟨[⟨"farm", 12, 0, 4, 0, 0⟩], List.replicate 10 ⟨0, none, none⟩, 10, [], []⟩

/-- Two buildings with 2 beds each (chronology order a, b) and two
homeless villagers. -/
def s7 : Settlement :=
  ⟨[⟨"a", 2, 0, 0, 0, 0⟩, ⟨"b", 2, 0, 0, 0, 0⟩],
   [⟨0, none, none⟩, ⟨0, none, none⟩], 0, [], []⟩

/-- One building with 5 beds and two homeless villagers, for the housing
allocator witness. -/
def s7w : Settlement :=
  ⟨[⟨"a", 5, 0, 0, 0, 0⟩], [⟨0, none, none⟩, ⟨0, none, none⟩], 0, [], []⟩

/-- A settlement with one villager, no buildings and no food: its yearly
update takes the insufficient-food branch. -/
def s10 : Settlement := ⟨[], [⟨0, none, none⟩], 0, [], []⟩

/-! ### Theorems -/

/-- Claim C1: the claim (and `occupy_area`'s own docstring) says
`occupy(origin=(0,0,0), size=(3,3), padding=1)` marks exactly the
columns `[-1,4)×[-1,4)` and a pool rebuild excludes them.  The code
instead adds `origin.shift(size[0]+x, 0, size[1]+z)`, marking
`[2,7)×[2,7)` at `y = 0`; and since the pool rebuild compares candidate
coordinates at `y = h - 1` against the stored `y = 0` coordinates, no
column of the flat height-10 terrain is excluded at all: `(0,9,0)` and
even `(2,9,2)` stay in the candidate pool. -/
theorem occupy_area_double_offset_and_y_mismatch :
    (⟨2, 0, 2⟩ : Coordinates) ∈ p1.occupied_coords ∧
    (⟨0, 0, 0⟩ : Coordinates) ∉ p1.occupied_coords ∧
    (⟨-1, 0, -1⟩ : Coordinates) ∉ p1.occupied_coords ∧
    (⟨0, 9, 0⟩ : Coordinates) ∈ p1.foundationKeys hm1 noWater ∧
    (⟨2, 9, 2⟩ : Coordinates) ∈ p1.foundationKeys hm1 noWater := by
  decide

/-- Claim C4: on an empty candidate pool (here: a 1×1 all-water plot)
`get_construction_spot` evaluates `keys_list[0]` and raises `IndexError`
(modelled `none`); it has no NoSuitableSpot outcome. -/
theorem get_construction_spot_empty_pool_crash :
    p4.foundationKeys hm4 allWater = [] ∧
    p4.get_construction_spot sqDist hm4 allWater (1, 1) = none := by
  decide

/-- Claim C6 (counterexample): with population 10, beds 12, food
production 4 and food stock 10, one `update` leaves `food_available = 4`
(not 0) and the roster at 10 villagers (not 12): the code computes
`food_for_children = food_available - population` after the population
was already subtracted, giving `14 - 10 - 10 = -6`, so
`max(0, min(-6, 2)) = 0` villagers are born, and the fed branch never
resets the food to 0. -/
theorem update_fed_branch_counterexample :
    (s6.update 1).food_available = 4 ∧
    (s6.update 1).inhabitants.length = 10 ∧
    ¬((s6.update 1).food_available = 0 ∧ (s6.update 1).inhabitants.length = 12) := by
  decide

/-- Claim C6 (amended): with population 10, beds 12, food production 4
and food stock 10, one `update` leaves `food_available = 4` and adds
exactly 0 newborn villagers (every roster birth year is still 0). -/
theorem update_fed_branch_amended :
    (s6.update 1).food_available = 4 ∧
    (s6.update 1).inhabitants.map Villager.birth = List.replicate 10 0 := by
  decide

/-- Claim C7 (counterexample): with buildings a, b of 2 beds each and two
homeless villagers, the housing assignment gives BOTH villagers to b (the
back of the pool) and none to a — `[0, 2]`, not the spread `[1, 1]` a
round-robin allocator would produce: `pop()` takes the back of the list
and the re-`append` puts the building straight back at the back. -/
theorem fill_houses_fills_last_building_first :
    (s7.fill_houses).chronology.map Bldg.inhab = [0, 2] ∧
    (s7.fill_houses).chronology.map Bldg.inhab ≠ [1, 1] := by
  decide

/-- Claim C8: when the placement search comes back empty
(`get_subplot` returns `None`), `add_building` returns `False` and the
settlement state — occupancy tracker, chronology, per-name counter and
villager roster — is exactly what it was. -/
theorem add_building_failure_no_mutation (s : Settlement) (b : Bldg) :
    s.add_building b none = (false, s) ∧
    (s.add_building b none).2.occupied = s.occupied ∧
    (s.add_building b none).2.chronology = s.chronology ∧
    (s.add_building b none).2.counter = s.counter ∧
    (s.add_building b none).2.inhabitants = s.inhabitants :=
  ⟨rfl, rfl, rfl, rfl, rfl⟩

lemma listModify_get?_eq {α : Type} (l : List α) (n : ℕ) (f : α → α) :
    (listModify l n f).get? n = (l.get? n).map f := by
  induction l generalizing n with
  | nil => cases n <;> rfl
  | cons a t ih =>
    cases n with
    | zero => rfl
    | succ m => simpa [listModify] using ih m

lemma listModify_get?_ne {α : Type} (l : List α) {m n : ℕ} (f : α → α)
    (h : m ≠ n) : (listModify l n f).get? m = l.get? m := by
  induction l generalizing m n with
  | nil => rfl
  | cons a t ih =>
    cases n with
    | zero =>
      cases m with
      | zero => exact absurd rfl h
      | succ j => rfl
    | succ k =>
      cases m with
      | zero => rfl
      | succ j => simpa [listModify] using ih (fun hjk => h (by omega))

lemma listModify_map {α β : Type} (l : List α) (n : ℕ) (f : α → α) (g : α → β)
    (hg : ∀ a, g (f a) = g a) : (listModify l n f).map g = l.map g := by
  induction l generalizing n with
  | nil => rfl
  | cons a t ih =>
    cases n with
    | zero => simp [listModify, hg]
    | succ m => simp [listModify, ih]

lemma fillHousesLoop_preserved (hv : List ℕ) : ∀ (stack : List ℕ) (s : Settlement),
    (fillHousesLoop s stack hv).inhabitants.map Villager.birth
      = s.inhabitants.map Villager.birth ∧
    (fillHousesLoop s stack hv).food_available = s.food_available := by
  induction hv with
  | nil => intro stack s; exact ⟨rfl, rfl⟩
  | cons v rest ih =>
    intro stack s
    cases h : stack.getLast? with
    | none => simp [fillHousesLoop, h]
    | some b =>
      simp only [fillHousesLoop, h]
      refine ⟨(ih _ _).1.trans ?_, (ih _ _).2.trans rfl⟩
      exact listModify_map _ _ _ _ (fun _ => rfl)

lemma fillWorkLoop_preserved (hv : List ℕ) : ∀ (stack : List ℕ) (s : Settlement),
    (fillWorkLoop s stack hv).inhabitants.map Villager.birth
      = s.inhabitants.map Villager.birth ∧
    (fillWorkLoop s stack hv).food_available = s.food_available := by
  induction hv with
  | nil => intro stack s; exact ⟨rfl, rfl⟩
  | cons v rest ih =>
    intro stack s
    cases h : stack.getLast? with
    | none => simp [fillWorkLoop, h]
    | some b =>
      simp only [fillWorkLoop, h]
      refine ⟨(ih _ _).1.trans ?_, (ih _ _).2.trans rfl⟩
      exact listModify_map _ _ _ _ (fun _ => rfl)

lemma fills_preserved (s : Settlement) :
    (s.fill_houses.fill_work_places).inhabitants.map Villager.birth
      = s.inhabitants.map Villager.birth ∧
    (s.fill_houses.fill_work_places).food_available = s.food_available := by
  have h1 := fillHousesLoop_preserved
    ((List.range s.inhabitants.length).filter fun i =>
      match s.inhabitants.get? i with
      | some v => v.house = none
      | none => false)
    ((List.range s.chronology.length).filter fun i =>
      match s.chronology.get? i with
      | some b => b.has_empty_beds
      | none => false) s
  have h2 := fillWorkLoop_preserved
    ((List.range s.fill_houses.inhabitants.length).filter fun i =>
      match s.fill_houses.inhabitants.get? i with
      | some v => v.work = none
      | none => false)
    ((List.range s.fill_houses.chronology.length).filter fun i =>
      match s.fill_houses.chronology.get? i with
      | some b => b.can_offer_work
      | none => false) s.fill_houses
  exact ⟨h2.1.trans h1.1, h2.2.trans h1.2⟩

/-- Claim C10: a yearly `update` never shrinks the roster: the birth
years of the updated roster are exactly the old roster's birth years
followed by `k` copies of the current year, for some `k ≥ 0` — every
previous villager is still there, in order.  In the insufficient-food
branch (`food_available + food_production < population`) the code's
`range(food_available)` runs over a negative number, so `k = 0`, and the
food stock is reset to 0. -/
theorem update_population_monotone (s : Settlement) (year : ℤ) :
    ∃ k : ℕ,
      (s.update year).inhabitants.map Villager.birth
        = s.inhabitants.map Villager.birth ++ List.replicate k year ∧
      s.inhabitants.length ≤ (s.update year).inhabitants.length ∧
      (s.food_available + s.food_production < (s.population : ℤ) →
        k = 0 ∧ (s.update year).food_available = 0) := by
  obtain ⟨hmap, hfood⟩ := fills_preserved (s.updateCore year)
  have hup : s.update year = (s.updateCore year).fill_houses.fill_work_places := rfl
  rw [hup]
  by_cases h1 : (s.population : ℤ) ≤ s.food_available + s.food_production
  · by_cases h2 : (s.population : ℤ) ≤ (s.number_of_beds : ℤ)
    · have hcore : s.updateCore year =
          { s with
            food_available := s.food_available + s.food_production - s.population,
            inhabitants := s.inhabitants ++
              List.replicate
                (max 0 (min (s.food_available + s.food_production - s.population -
                    s.population)
                  (min ((s.population : ℤ) / 2)
                    ((s.number_of_beds : ℤ) - s.population)))).toNat
                ⟨year, none, none⟩ } := by
        simp only [Settlement.updateCore, if_pos h1, if_pos h2]
      refine ⟨(max 0 (min (s.food_available + s.food_production - s.population -
          s.population)
        (min ((s.population : ℤ) / 2)
          ((s.number_of_beds : ℤ) - s.population)))).toNat, ?_, ?_, ?_⟩
      · rw [hmap, hcore]
        simp [List.map_append]
      · have := congrArg List.length hmap
        simp only [List.length_map] at this
        rw [this, hcore]
        simp
      · intro hlt
        exact absurd h1 (not_le.mpr hlt)
    · have hcore : s.updateCore year =
          { s with food_available := s.food_available + s.food_production - s.population } := by
        simp only [Settlement.updateCore, if_pos h1, if_neg h2]
      refine ⟨0, ?_, ?_, ?_⟩
      · rw [hmap, hcore]; simp
      · have := congrArg List.length hmap
        simp only [List.length_map] at this
        rw [this, hcore]
      · intro hlt
        exact absurd h1 (not_le.mpr hlt)
  · have hneg : s.food_available + s.food_production - (s.population : ℤ) ≤ 0 := by
      omega
    have hcore : s.updateCore year =
        { s with food_available := 0,
                 inhabitants := s.inhabitants ++
                   List.replicate
                     (s.food_available + s.food_production - (s.population : ℤ)).toNat
                     ⟨year, none, none⟩ } := by
      simp only [Settlement.updateCore, if_neg h1]
    refine ⟨0, ?_, ?_, fun _ => ⟨rfl, ?_⟩⟩
    · rw [hmap, hcore]
      simp [Int.toNat_of_nonpos hneg]
    · have := congrArg List.length hmap
      simp only [List.length_map] at this
      rw [this, hcore]
      simp
    · rw [hfood, hcore]

/-- Witness for C10 at a concrete settlement in the insufficient-food
branch: one villager, no buildings, no food. -/
theorem update_population_monotone_witness :
    (s10.update 3).food_available = 0 ∧
    s10.inhabitants.length ≤ (s10.update 3).inhabitants.length := by
  obtain ⟨k, hmap, hlen, himp⟩ := update_population_monotone s10 3
  exact ⟨(himp (by decide)).2, hlen⟩

/-- Claim C7 (amended): the housing loop is a LIFO first-fit allocator.
If the building at the back of the free-bed pool has enough free beds
for all remaining homeless villagers, it absorbs every one of them —
its inhabitant count grows by the whole villager list — while every
other building's entry in the chronology is left untouched (it receives
nobody, even if it has empty beds): popping at the back and re-appending
at the back hands the same building straight back to the next
iteration. -/
theorem fill_houses_lifo_absorbs (hv : List ℕ) :
    ∀ (stack : List ℕ) (s : Settlement) (h : ℕ) (b : Bldg),
      stack.getLast? = some h →
      s.chronology.get? h = some b →
      hv.length + b.inhab ≤ b.number_of_beds →
      (fillHousesLoop s stack hv).chronology.get? h
          = some { b with inhab := b.inhab + hv.length } ∧
      ∀ j, j ≠ h → (fillHousesLoop s stack hv).chronology.get? j
          = s.chronology.get? j := by
  induction hv with
  | nil =>
    intro stack s h b _ hb _
    exact ⟨by simpa using hb, fun j _ => rfl⟩
  | cons v rest ih =>
    intro stack s h b hl hb hcap
    simp only [fillHousesLoop, hl]
    have hb' : (s.assignHouse h v).chronology.get? h
        = some { b with inhab := b.inhab + 1 } := by
      show (listModify s.chronology h _).get? h = _
      rw [listModify_get?_eq, hb]
      rfl
    cases rest with
    | nil =>
      refine ⟨?_, ?_⟩
      · simpa using hb'
      · intro j hj
        exact listModify_get?_ne s.chronology _ hj
    | cons v2 rs =>
      have hlt : b.inhab + 1 < b.number_of_beds := by
        simp only [List.length_cons] at hcap
        omega
      have hkeep : (match (s.assignHouse h v).chronology.get? h with
          | some bb => bb.has_empty_beds
          | none => false) = true := by
        rw [hb']
        simpa [Bldg.has_empty_beds] using hlt
      rw [hkeep]
      simp only [if_true]
      have hres := ih (stack.dropLast ++ [h]) (s.assignHouse h v) h
        { b with inhab := b.inhab + 1 } (List.getLast?_concat _) hb'
        (by simp only [List.length_cons] at hcap ⊢; omega)
      refine ⟨?_, ?_⟩
      · rw [hres.1]
        simp only [Option.some.injEq]
        congr 1
        simp [List.length_cons]
        omega
      · intro j hj
        rw [hres.2 j hj]
        exact listModify_get?_ne s.chronology _ hj

/-- Witness for the amended C7 at a concrete settlement: one building
with 5 beds at the back of the pool absorbs both homeless villagers. -/
theorem fill_houses_lifo_absorbs_witness :
    (fillHousesLoop s7w [0] [0, 1]).chronology.get? 0
        = some ⟨"a", 5, 0, 0, 2, 0⟩ ∧
    ∀ j, j ≠ 0 → (fillHousesLoop s7w [0] [0, 1]).chronology.get? j
        = s7w.chronology.get? j := by
  have h := fill_houses_lifo_absorbs [0, 1] [0] s7w 0 ⟨"a", 5, 0, 0, 0, 0⟩
    (by decide) (by decide) (by decide)
  simpa using h

lemma scoreLoop_out_of_plot (p : CPlot) (hm : ℕ → ℕ → ℤ) (coord : Coordinates) :
    ∀ (cells : List (ℕ × ℕ)) (acc : ℚ),
      (∃ c ∈ cells, p.containsC (coord.shift c.1 0 c.2) = false) →
      scoreLoop p hm coord cells acc = some WORST_SCORE ∨
      scoreLoop p hm coord cells acc = none := by
  intro cells
  induction cells with
  | nil =>
    intro acc h
    obtain ⟨c, hc, _⟩ := h
    simp at hc
  | cons cd rest ih =>
    intro acc h
    obtain ⟨dx, dz⟩ := cd
    obtain ⟨c, hc, hcf⟩ := h
    by_cases hcont : p.containsC (coord.shift dx 0 dz) = true
    · rcases List.mem_cons.mp hc with rfl | hmem
      · rw [hcont] at hcf
        cases hcf
      · simp only [scoreLoop, hcont, if_true]
        cases hy : p.get_y hm (coord.shift dx 0 dz).x (coord.shift dx 0 dz).y with
        | none => exact Or.inr rfl
        | some yy => exact ih _ ⟨c, hmem, hcf⟩
    · have hcf2 : p.containsC (coord.shift dx 0 dz) = false :=
        Bool.not_eq_true _ ▸ Bool.of_not_eq_true hcont
      left
      simp [scoreLoop, hcf2]

/-- Claim C9 (amended): whenever some footprint cell lies outside the
plot bound, `_get_score` never returns a smaller real score: it either
returns the sentinel `_WORST_SCORE` (reaching the out-of-bound cell
first) or aborts with an uncaught numpy `IndexError` raised by an
earlier cell's mis-indexed heightmap lookup.  Water is not consulted by
the scorer at all. -/
theorem get_score_out_of_plot_sentinel_or_raise
    (dist : Coordinates → Coordinates → ℚ) (p : CPlot) (hm : ℕ → ℕ → ℤ)
    (coord : Coordinates) (size : ℕ × ℕ)
    (h : ∃ c ∈ footprintCells size, p.containsC (coord.shift c.1 0 c.2) = false) :
    p.get_score dist hm coord size = some WORST_SCORE ∨
    p.get_score dist hm coord size = none :=
  scoreLoop_out_of_plot p hm coord (footprintCells size) _ h

/-- Witness for the amended C9: a 1×1 plot scored at the far-away origin
(5, 0, 5), whose single footprint cell is outside the plot. -/
theorem get_score_out_of_plot_witness :
    pw9.get_score sqDist hm9 ⟨5, 0, 5⟩ (1, 1) = some WORST_SCORE ∨
    pw9.get_score sqDist hm9 ⟨5, 0, 5⟩ (1, 1) = none :=
  get_score_out_of_plot_sentinel_or_raise sqDist pw9 hm9 ⟨5, 0, 5⟩ (1, 1)
    ⟨(0, 0), by decide, by decide⟩

/-- Claim C9 (counterexample): on the 1×2 plot `p9` the ground of
footprint cell (0, 1) is water (`w9 0 0 1 = true`, and the pool build
accordingly excludes that column), every footprint cell of the origin
(0, 0, 0) lies inside the plot, yet `_get_score` returns the small real
score 21/10 — not the sentinel: the scorer never looks at water. -/
theorem get_score_ignores_water :
    w9 0 0 1 = true ∧
    (∀ c ∈ footprintCells (1, 2),
      p9.containsC ((⟨0, 0, 0⟩ : Coordinates).shift c.1 0 c.2) = true) ∧
    (⟨0, 0, 1⟩ : Coordinates) ∉ p9.foundationKeys hm9 w9 ∧
    p9.get_score sqDist hm9 ⟨0, 0, 0⟩ (1, 2) = some (21 / 10) ∧
    (21 / 10 : ℚ) < WORST_SCORE := by
  refine ⟨by decide, by decide, by decide, ?_, by norm_num [WORST_SCORE]⟩
  have h : p9.get_score sqDist hm9 ⟨0, 0, 0⟩ (1, 2)
      = some (sqDist ⟨0, 0, 0⟩ ⟨0, 0, 1⟩ * (1 / 10) + ((1 : ℕ) : ℚ) + ((1 : ℕ) : ℚ)) := rfl
  rw [h]
  norm_num [sqDist]

lemma searchLoop_min (f : Coordinates → Option ℚ) :
    ∀ (l : List Coordinates) (best : Coordinates) (m : ℚ),
      (∀ k ∈ l, ∃ s, f k = some s) →
      ∃ b, searchLoop f l best m = some b ∧
        ((b = best ∧ ∀ k ∈ l, ∀ t, f k = some t → m ≤ t) ∨
         (b ∈ l ∧ ∃ s, f b = some s ∧ s < m ∧
           ∀ k ∈ l, ∀ t, f k = some t → s ≤ t)) := by
  intro l
  induction l with
  | nil =>
    intro best m _
    exact ⟨best, rfl, Or.inl ⟨rfl, by simp⟩⟩
  | cons c rest ih =>
    intro best m hall
    obtain ⟨sc, hsc⟩ := hall c (List.mem_cons_self c rest)
    have hrest : ∀ k ∈ rest, ∃ s, f k = some s :=
      fun k hk => hall k (List.mem_cons_of_mem c hk)
    by_cases hlt : sc < m
    · obtain ⟨b, hb, hcase⟩ := ih c sc hrest
      refine ⟨b, ?_, ?_⟩
      · simp only [searchLoop, hsc]
        rw [if_pos hlt]
        exact hb
      · rcases hcase with ⟨rfl, hmin⟩ | ⟨hbm, s, hfb, hslt, hmin⟩
        · refine Or.inr ⟨List.mem_cons_self b rest, sc, hsc, hlt, ?_⟩
          intro k hk t hft
          rcases List.mem_cons.mp hk with rfl | hk2
          · rw [hsc] at hft
            exact le_of_eq (Option.some.inj hft)
          · exact hmin k hk2 t hft
        · refine Or.inr ⟨List.mem_cons_of_mem c hbm, s, hfb, lt_trans hslt hlt, ?_⟩
          intro k hk t hft
          rcases List.mem_cons.mp hk with rfl | hk2
          · rw [hsc] at hft
            exact le_of_lt (lt_of_lt_of_le hslt (le_of_eq (Option.some.inj hft)))
          · exact hmin k hk2 t hft
    · obtain ⟨b, hb, hcase⟩ := ih best m hrest
      refine ⟨b, ?_, ?_⟩
      · simp only [searchLoop, hsc]
        rw [if_neg hlt]
        exact hb
      · rcases hcase with ⟨rfl, hmin⟩ | ⟨hbm, s, hfb, hslt, hmin⟩
        · refine Or.inl ⟨rfl, ?_⟩
          intro k hk t hft
          rcases List.mem_cons.mp hk with rfl | hk2
          · rw [hsc] at hft
            exact le_of_le_of_eq (not_lt.mp hlt) (Option.some.inj hft)
          · exact hmin k hk2 t hft
        · refine Or.inr ⟨List.mem_cons_of_mem c hbm, s, hfb, hslt, ?_⟩
          intro k hk t hft
          rcases List.mem_cons.mp hk with rfl | hk2
          · rw [hsc] at hft
            have ht : t = sc := (Option.some.inj hft).symm
            exact ht ▸ (le_of_lt (lt_of_lt_of_le hslt (not_lt.mp hlt)))
          · exact hmin k hk2 t hft

/-- Claim C3 (amended): for every non-empty candidate pool searched at
stride 1, IF every pool coordinate's score evaluates without an
exception and no score exceeds the sentinel `_WORST_SCORE`, THEN
`get_construction_spot` returns a pool coordinate whose score is the
minimum of `_get_score` over the entire pool (first-encountered
tie-break).  Both provisos are needed: an aborted score evaluation
aborts the whole search, and a score above the sentinel can never
replace the running minimum, which starts at the sentinel. -/
theorem get_construction_spot_min (dist : Coordinates → Coordinates → ℚ)
    (p : CPlot) (hm : ℕ → ℕ → ℤ) (water : ℤ → ℤ → ℤ → Bool) (size : ℕ × ℕ)
    (hne : p.foundationKeys hm water ≠ [])
    (hall : ∀ k ∈ p.foundationKeys hm water,
      ∃ s, p.get_score dist hm k size = some s ∧ s ≤ WORST_SCORE) :
    ∃ b s, p.get_construction_spot dist hm water size = some b ∧
      b ∈ p.foundationKeys hm water ∧
      p.get_score dist hm b size = some s ∧
      ∀ k ∈ p.foundationKeys hm water, ∀ t,
        p.get_score dist hm k size = some t → s ≤ t := by
  rcases hkeys : p.foundationKeys hm water with _ | ⟨k0, rest⟩
  · exact absurd hkeys hne
  · have hall' : ∀ k ∈ k0 :: rest, ∃ s, p.get_score dist hm k size = some s := by
      intro k hk
      obtain ⟨s, hs, _⟩ := hall k (by rw [hkeys]; exact hk)
      exact ⟨s, hs⟩
    obtain ⟨b, hb, hcase⟩ :=
      searchLoop_min (fun c => p.get_score dist hm c size) (k0 :: rest) k0
        WORST_SCORE hall'
    have hspot : p.get_construction_spot dist hm water size = some b := by
      unfold CPlot.get_construction_spot
      rw [hkeys]
      exact hb
    rcases hcase with ⟨hbk0, hmin⟩ | ⟨hbm, s, hfb, _, hmin⟩
    · subst hbk0
      obtain ⟨s0, hs0, hle⟩ := hall b (by rw [hkeys]; exact List.mem_cons_self b rest)
      refine ⟨b, s0, hspot, List.mem_cons_self b rest, hs0, ?_⟩
      intro k hk t hft
      exact le_trans hle (hmin k hk t hft)
    · refine ⟨b, s, hspot, hbm, hfb, ?_⟩
      intro k hk t hft
      exact hmin k hk t hft

/-- Claim C3 (counterexample): a 2×2 plot at world origin over ordinary
flat terrain of height 64 has a non-empty candidate pool, yet the
stride-1 search returns no coordinate at all: scoring the first
candidate calls `_get_y(current.x, current.y)`, whose second index
`64 - 1 - start.z = 63` is outside the 2-column heightmap, and the numpy
`IndexError` is not caught by the `except KeyError` handler. -/
theorem get_construction_spot_raises_on_plain_terrain :
    pc3.foundationKeys hmc3 noWater ≠ [] ∧
    pc3.get_construction_spot sqDist hmc3 noWater (1, 1) = none := by
  decide

/-- Witness for the amended C3: a 1×1 plot whose single candidate is
returned with its (minimal) score. -/
theorem get_construction_spot_min_witness :
    ∃ b s, p3w.get_construction_spot sqDist hm3w noWater (1, 1) = some b ∧
      b ∈ p3w.foundationKeys hm3w noWater ∧
      p3w.get_score sqDist hm3w b (1, 1) = some s ∧
      ∀ k ∈ p3w.foundationKeys hm3w noWater, ∀ t,
        p3w.get_score sqDist hm3w k (1, 1) = some t → s ≤ t := by
  apply get_construction_spot_min
  · decide
  · intro k hk
    have hkeys : p3w.foundationKeys hm3w noWater = [⟨0, 0, 0⟩] := by decide
    rw [hkeys] at hk
    have hk0 : k = ⟨0, 0, 0⟩ := by simpa using hk
    subst hk0
    refine ⟨1, ?_, by norm_num [WORST_SCORE]⟩
    have h : p3w.get_score sqDist hm3w ⟨0, 0, 0⟩ (1, 1)
        = some (sqDist ⟨0, 0, 0⟩ ⟨0, 0, 0⟩ * (1 / 10) + ((1 : ℕ) : ℚ)) := rfl
    rw [h]
    norm_num [sqDist]

lemma argminLoop_lb {α : Type} (score : α → ℚ) :
    ∀ (l : List α) (best : α) (m t : ℚ),
      (∀ k ∈ l, t < score k) → t < m → t < (argminLoop score l best m).2 := by
  intro l
  induction l with
  | nil => intro best m t _ h; exact h
  | cons c rest ih =>
    intro best m t hall hm
    by_cases h : score c < m
    · simp only [argminLoop]
      rw [if_pos h]
      exact ih c (score c) t (fun k hk => hall k (List.mem_cons_of_mem c hk))
        (hall c (List.mem_cons_self c rest))
    · simp only [argminLoop]
      rw [if_neg h]
      exact ih best m t (fun k hk => hall k (List.mem_cons_of_mem c hk)) hm

/-- Claim C5: in the spec-modelled `find_spot`, when a `max_score`
threshold is supplied and every candidate's score — hence the pool
minimum — exceeds it, the search reports NoSuitableSpot (`none`) instead
of a coordinate. -/
theorem find_spot_reports_no_suitable_spot
    (pool : List Coordinates) (score : Coordinates → ℚ) (t : ℚ)
    (h : ∀ k ∈ pool, t < score k) :
    findSpot pool score (some t) = none := by
  cases pool with
  | nil => rfl
  | cons p0 rest =>
    have hlb : t < (argminLoop score rest p0 (score p0)).2 :=
      argminLoop_lb score rest p0 (score p0) t
        (fun k hk => h k (List.mem_cons_of_mem p0 hk))
        (h p0 (List.mem_cons_self p0 rest))
    simp only [findSpot]
    rw [if_pos hlb]

/-- Witness for C5: a single candidate of score 5 against threshold 1. -/
theorem find_spot_reports_no_suitable_spot_witness :
    findSpot [(⟨0, 0, 0⟩ : Coordinates)] (fun _ => (5 : ℚ)) (some 1) = none :=
  find_spot_reports_no_suitable_spot _ _ _ (fun _ _ => by norm_num)

/-- Claim C2: on the 2×2 plot `p2` with heightmap `[[1, 5], [7, 9]]`,
origin (0, 0, 0) and footprint (1, 2) — every cell inside the plot —
the code's `_get_score` yields `0.1·dist + 2` while the claimed formula
(`scoreSpec`) yields `0.1·dist + 6`, for EVERY distance function `dist`:
`_get_score` passes `current.y` to `_get_y` where a z coordinate is
expected, so every cell term reads `heightmap[dx, coord.y - start.z]`
(here `heightmap[dx, 0]`) instead of that cell's own column height. -/
theorem get_score_misindexed_sum (dist : Coordinates → Coordinates → ℚ) :
    (∀ c ∈ footprintCells (1, 2),
      p2.containsC ((⟨0, 0, 0⟩ : Coordinates).shift c.1 0 c.2) = true) ∧
    p2.get_score dist hm2 ⟨0, 0, 0⟩ (1, 2)
      = some (dist ⟨0, 0, 0⟩ ⟨1, 0, 1⟩ * (1 / 10) + 2) ∧
    scoreSpec p2 dist hm2 ⟨0, 0, 0⟩ (1, 2)
      = dist ⟨0, 0, 0⟩ ⟨1, 0, 1⟩ * (1 / 10) + 6 ∧
    p2.get_score dist hm2 ⟨0, 0, 0⟩ (1, 2)
      ≠ some (scoreSpec p2 dist hm2 ⟨0, 0, 0⟩ (1, 2)) := by
  have hA : p2.get_score dist hm2 ⟨0, 0, 0⟩ (1, 2)
      = some (dist ⟨0, 0, 0⟩ ⟨1, 0, 1⟩ * (1 / 10) + ((1 : ℕ) : ℚ) + ((1 : ℕ) : ℚ)) := rfl
  have hB : scoreSpec p2 dist hm2 ⟨0, 0, 0⟩ (1, 2)
      = dist ⟨0, 0, 0⟩ ⟨1, 0, 1⟩ * (1 / 10) + (((1 : ℕ) : ℚ) + (((5 : ℕ) : ℚ) + 0)) := rfl
  refine ⟨by decide, ?_, ?_, ?_⟩
  · rw [hA]
    simp only [Option.some.injEq]
    push_cast
    ring
  · rw [hB]
    push_cast
    ring
  · intro hEq
    rw [hA, hB] at hEq
    simp only [Option.some.injEq] at hEq
    push_cast at hEq
    linarith

end Tsukuba
